import Mathlib

/-!
# rbpible: the Bluetooth scanner of `src/main.cpp`

A shallow embedding of `class BluetoothScanner` and of `main`.

The program talks to the outside through sd-bus calls, a sleep and the two
standard streams. Every such interaction is recorded, in program order, as an
`Event` of a `Trace`; the answers of the outside world (the return value of
`sd_bus_open_system`, of each `sd_bus_call_method`, and the content of each
reply) are the fields of a `Service`, which the functions take as a parameter.
The text of an sd-bus error is a C string that may be the null pointer;
`std::cerr` handed such a pointer writes nothing for it, sets its badbit and
writes nothing from then on, which the trace records as `Event.cerrFail`.
Reference counting of messages and errors (`sd_bus_message_unref`,
`sd_bus_error_free`, `sd_bus_unref`) has no observable effect and is left out.

Texts are Lean strings. The one search the program makes, `std::string::find`
with an ASCII pattern, finds the same occurrences on characters as on bytes.
The counter `count` of the report is an `int` in the source and an `Int` here:
a D-Bus message is at most 2^27 bytes long, so the counter stays far below
2^31. Exhaustion of memory is not modelled.
-/

namespace BluetoothScanner

/-! ## Observable events -/

/-- One interaction of the program with the outside world. -/
inductive Event where
  /-- The call `sd_bus_open_system(&bus)`. -/
  | openSystem
  /-- One `sd_bus_call_method(bus, destination, path, interface, member, ..., args)`. -/
  | call (destination path interface member : String) (args : List String)
  /-- The call `std::this_thread::sleep_for(std::chrono::seconds(seconds))`. -/
  | sleep (seconds : Int)
  /-- The text one statement writes to `std::cout` (`std::endl` is the final newline). -/
  | cout (text : String)
  /-- The text one statement writes to `std::cerr`. -/
  | cerr (text : String)
  /-- A null `const char*` was streamed to `std::cerr`: the stream sets its
  badbit, and every later insertion into it writes nothing. -/
  | cerrFail
  deriving DecidableEq, Repr

/-- The interactions so far, oldest first. -/
abbrev Trace := List Event

/-- The method calls of a trace, in order. -/
def callsOf : Trace → List Event
  | [] => []
  | Event.call d p i m a :: t => Event.call d p i m a :: callsOf t
  | _ :: t => callsOf t

/-- The sleeps of a trace, in order. -/
def sleepsOf : Trace → List Int
  | [] => []
  | Event.sleep s :: t => s :: sleepsOf t
  | _ :: t => sleepsOf t

/-- The texts written to standard output, in order. -/
def coutOf : Trace → List String
  | [] => []
  | Event.cout s :: t => s :: coutOf t
  | _ :: t => coutOf t

/-- The texts written to standard error, in order. -/
def cerrOf : Trace → List String
  | [] => []
  | Event.cerr s :: t => s :: cerrOf t
  | _ :: t => cerrOf t

/-- The method calls and the sleeps of a trace, in order: what the program
does to the outside world apart from printing. -/
def actionsOf : Trace → List Event
  | [] => []
  | Event.call d p i m a :: t => Event.call d p i m a :: actionsOf t
  | Event.sleep s :: t => Event.sleep s :: actionsOf t
  | _ :: t => actionsOf t

/-- Whether `std::cerr` is in the failed state after the events of the trace. -/
def cerrBad : Trace → Bool
  | [] => false
  | Event.cerrFail :: _ => true
  | _ :: t => cerrBad t

/-- What the statement `std::cerr << pre << message << std::endl` writes, where
`message` is a `const char*` (`none` is the null pointer) and `bad` tells
whether the stream has already failed. A failed stream writes nothing. A null
`message` is met after `pre` has been written: the stream fails there, and the
newline of `std::endl` is not written any more. -/
def cerrEvents (pre : String) (message : Option String) (bad : Bool) : List Event :=
  if bad then []
  else
    match message with
    | some text => [Event.cerr (pre ++ text ++ "\n")]
    | none => [Event.cerr pre, Event.cerrFail]

/-- The statement `std::cerr << pre << message << std::endl` on a trace. -/
def cerrLine (pre : String) (message : Option String) (tr : Trace) : Trace :=
  tr ++ cerrEvents pre message (cerrBad tr)

/-- Number of method calls issued so far: the sequence number of the next call. -/
def callsIssued (tr : Trace) : Nat := (callsOf tr).length

/-! ## The answers of the bus -/

/-- Outcome of a parameterless `sd_bus_call_method` (`StartDiscovery`, `StopDiscovery`). -/
structure CallResult where
  /-- The return value `r` of `sd_bus_call_method`. -/
  r : Int
  /-- The pointer `error.message` after the call: `none` is the null pointer,
  which sd-bus leaves there when the call succeeds and when the error reply
  carries no text. -/
  message : Option String
  deriving DecidableEq, Repr

/-- Outcome of one `Properties.Get` call and of the read of its reply. -/
structure PropertyReply where
  /-- The return value `r` of `sd_bus_call_method`. -/
  r : Int
  /-- The return value of `sd_bus_message_read(reply, "v", "s", &name)`. -/
  readR : Int
  /-- The pointer after that read: `none` is a pointer left at `nullptr`. -/
  value : Option String
  deriving DecidableEq, Repr

/-- A property value inside an interface map. -/
inductive Variant where
  | str (s : String)
  | other (signature : String)
  deriving DecidableEq, Repr

/-- The `a{sa{sv}}` part of an entry: interface name to property name to value. -/
abbrev InterfaceMap := List (String × List (String × Variant))

/-- One `{oa{sa{sv}}}` dict entry of a `GetManagedObjects` reply.
`path = none`: `sd_bus_message_read(reply, "o", ...)` fails on this entry.
`interfaces = none`: `sd_bus_message_skip(reply, "a{sa{sv}}")` fails on it. -/
structure Entry where
  path : Option String
  interfaces : Option InterfaceMap
  deriving DecidableEq, Repr

/-- Outcome of the `GetManagedObjects` call. `message` is the pointer
`error.message`, `none` for the null pointer. `body = none`: the reply does not
hold an array of `{oa{sa{sv}}}`, so the outer `sd_bus_message_enter_container`
fails. -/
structure ManagedObjects where
  r : Int
  message : Option String
  body : Option (List Entry)
  deriving DecidableEq, Repr

/-- What the outside world answers during one run. `propertiesGet n path prop`
is the answer to the `Properties.Get` call for `prop` on `path` issued as method
call number `n` of the run (counted from 0), so the same path may be answered
differently at different times. -/
structure Service where
  /-- Return value of `sd_bus_open_system`. -/
  openSystem : Int
  /-- The text `strerror` gives for an errno value. -/
  strerror : Int → String
  startDiscovery : CallResult
  stopDiscovery : CallResult
  getManagedObjects : ManagedObjects
  propertiesGet : Nat → String → String → PropertyReply

/-! ## `std::string::find` -/

/-- Search for `needle` from the front of the text; `pos` is the index of the
first character of the text. `none` stands for `std::string::npos`. -/
def findFrom (needle : List Char) : List Char → Nat → Option Nat
  | [], pos => if needle = [] then some pos else none
  | c :: cs, pos =>
    if needle.isPrefixOf (c :: cs) then some pos else findFrom needle cs (pos + 1)

/-- The call `s.find(needle)`: index of the first occurrence, `none` for `npos`. -/
def find (s needle : String) : Option Nat := findFrom needle.data s.data 0

/-! ## The read cursor of the `GetManagedObjects` reply

sd-bus reads a message through a cursor. Inside the top-level array the
cursor is either between two dict entries or inside one, before the object
path, before the interface map, or behind it. A read that fails leaves the
cursor where it was; `sd_bus_message_exit_container` refuses (`-EBUSY`, -16) to
leave a dict entry that has unread members, and
`sd_bus_message_enter_container` refuses (`-ENXIO`, -6) to open a dict entry
while the cursor is inside one. A value that cannot be read gives `-EBADMSG`
(-74). When skipping an interface map fails part of the way, members of the
entry remain unread; the cursor is then kept before the map, which answers the
later calls in the same way. The program looks only at the sign of the return
values. -/

/-- Where the cursor stands relative to the first entry not yet left. -/
inductive Cursor where
  | between
  | atPath
  | atInterfaces
  | atEnd
  deriving DecidableEq, Repr

/-- The reply while it is read: the entries not yet left, and the cursor. -/
structure Reply where
  entries : List Entry
  cursor : Cursor
  deriving DecidableEq, Repr

/-- The call `sd_bus_message_enter_container(reply, 'e', "oa{sa{sv}}")`. -/
def enterEntry (m : Reply) : Int × Reply :=
  match m.cursor, m.entries with
  | Cursor.between, [] => (0, m)
  | Cursor.between, _ :: _ => (1, { m with cursor := Cursor.atPath })
  | _, _ => (-6, m)

/-- The call `sd_bus_message_read(reply, "o", &object_path)`; the second
component is the pointer after the call, untouched when the read fails. -/
def readObjectPath (m : Reply) (object_path : Option String) : Int × Option String × Reply :=
  match m.cursor, m.entries with
  | Cursor.atPath, e :: _ =>
    match e.path with
    | some p => (1, some p, { m with cursor := Cursor.atInterfaces })
    | none => (-74, object_path, m)
  | _, _ => (-6, object_path, m)

/-- The call `sd_bus_message_skip(reply, "a{sa{sv}}")`. -/
def skipInterfaces (m : Reply) : Int × Reply :=
  match m.cursor, m.entries with
  | Cursor.atInterfaces, e :: _ =>
    match e.interfaces with
    | some _ => (1, { m with cursor := Cursor.atEnd })
    | none => (-74, m)
  | _, _ => (-6, m)

/-- The call `sd_bus_message_exit_container(reply)` made inside the loop. -/
def exitContainer (m : Reply) : Int × Reply :=
  match m.cursor, m.entries with
  | Cursor.atEnd, _ :: es => (1, { entries := es, cursor := Cursor.between })
  | _, _ => (-16, m)

/-! ## The methods of `BluetoothScanner` -/

/-- The constructor: opens the system bus, throws `std::runtime_error` (here
`Except.error` with the text of `what()`) when that fails. The trace is
returned on both paths. -/
def construct (env : Service) (tr : Trace) : Except String Unit × Trace :=
  let r := env.openSystem
  let tr := tr ++ [Event.openSystem]
  if r < 0 then
    (Except.error ("Failed to connect to system bus: " ++ env.strerror (-r)), tr)
  else
    (Except.ok (), tr)

/-- Method `startDiscovery`. -/
def startDiscovery (env : Service) (tr : Trace) : Bool × Trace :=
  let res := env.startDiscovery
  let tr := tr ++ [Event.call "org.bluez" "/org/bluez/hci0" "org.bluez.Adapter1" "StartDiscovery" []]
  if res.r < 0 then
    (false, cerrLine "Failed to start discovery: " res.message tr)
  else
    (true, tr ++ [Event.cout ("Discovery started..." ++ "\n")])

/-- Method `stopDiscovery`. -/
def stopDiscovery (env : Service) (tr : Trace) : Bool × Trace :=
  let res := env.stopDiscovery
  let tr := tr ++ [Event.call "org.bluez" "/org/bluez/hci0" "org.bluez.Adapter1" "StopDiscovery" []]
  if res.r < 0 then
    (false, cerrLine "Failed to stop discovery: " res.message tr)
  else
    (true, tr ++ [Event.cout ("Discovery stopped." ++ "\n")])

/-- Method `getDeviceName`. -/
def getDeviceName (env : Service) (device_path : String) (tr : Trace) : String × Trace :=
  let reply := env.propertiesGet (callsIssued tr) device_path "Name"
  let tr := tr ++ [Event.call "org.bluez" device_path "org.freedesktop.DBus.Properties" "Get"
    ["org.bluez.Device1", "Name"]]
  if reply.r < 0 then
    ("Unknown Device", tr)
  else
    let name := reply.value
    let r := reply.readR
    let device_name :=
      match name with
      | some s => if r ≥ 0 then s else "Unknown Device"
      | none => "Unknown Device"
    (device_name, tr)

/-- Method `getDeviceAddress`. -/
def getDeviceAddress (env : Service) (device_path : String) (tr : Trace) : String × Trace :=
  let reply := env.propertiesGet (callsIssued tr) device_path "Address"
  let tr := tr ++ [Event.call "org.bluez" device_path "org.freedesktop.DBus.Properties" "Get"
    ["org.bluez.Device1", "Address"]]
  if reply.r < 0 then
    ("Unknown Address", tr)
  else
    let address := reply.value
    let r := reply.readR
    let device_address :=
      match address with
      | some s => if r ≥ 0 then s else "Unknown Address"
      | none => "Unknown Address"
    (device_address, tr)

/-- The `while` loop of `getDiscoveredDevices` (lines 183 to 194). `object_path`
is declared before the loop and keeps its value from one round to the next.
`none` is returned when the fuel runs out before the loop ends. -/
def getDiscoveredDevicesLoop :
    Nat → Reply → Option String → List String → Option (List String)
  | 0, _, _, _ => none
  | fuel + 1, reply, object_path, devices =>
    let (e, reply) := enterEntry reply
    if e > 0 then
      let (r, object_path, reply) := readObjectPath reply object_path
      let devices :=
        if r ≥ 0 then
          match object_path with
          | some path =>
            if find path "/org/bluez/hci0/dev_" ≠ none then devices ++ [path] else devices
          | none => devices
        else devices
      let (_, reply) := skipInterfaces reply
      let (_, reply) := exitContainer reply
      getDiscoveredDevicesLoop fuel reply object_path devices
    else
      some devices

/-- Method `getDiscoveredDevices`. The loop is run with one unit of fuel per
entry and one for the round that ends it; `getDiscoveredDevicesLoop_fuel` shows
that this is enough and that more fuel changes nothing. The calls after the
loop (leaving the array, releasing the reply) do not touch `devices`. -/
def getDiscoveredDevices (env : Service) (tr : Trace) : List String × Trace :=
  let res := env.getManagedObjects
  let devices : List String := []
  let tr := tr ++ [Event.call "org.bluez" "/" "org.freedesktop.DBus.ObjectManager"
    "GetManagedObjects" []]
  if res.r < 0 then
    (devices, cerrLine "Failed to get managed objects: " res.message tr)
  else
    match res.body with
    | none => (devices, tr)
    | some entries =>
      let reply : Reply := { entries := entries, cursor := Cursor.between }
      ((getDiscoveredDevicesLoop (entries.length + 1) reply none devices).getD devices, tr)

/-- The range-`for` of `scanForDevices` (lines 226 to 234); `count` is the
local counter. -/
def reportLoop (env : Service) : List String → Int → Trace → Trace
  | [], _, tr => tr
  | device_path :: rest, count, tr =>
    let (name, tr) := getDeviceName env device_path tr
    let (address, tr) := getDeviceAddress env device_path tr
    let tr := tr ++ [Event.cout (toString count ++ ". " ++ name ++ "\n")]
    let tr := tr ++ [Event.cout ("   Address: " ++ address ++ "\n")]
    let tr := tr ++ [Event.cout ("   Path: " ++ device_path ++ "\n")]
    let tr := tr ++ [Event.cout "\n"]
    reportLoop env rest (count + 1) tr

/-- Method `scanForDevices`. -/
def scanForDevices (env : Service) (duration_seconds : Int) (tr : Trace) : Trace :=
  let tr := tr ++ [Event.cout ("Starting Bluetooth device scan for " ++ toString duration_seconds
    ++ " seconds..." ++ "\n")]
  let (started, tr) := startDiscovery env tr
  if !started then
    tr
  else
    let tr := tr ++ [Event.sleep duration_seconds]
    let (_, tr) := stopDiscovery env tr
    let (devices, tr) := getDiscoveredDevices env tr
    let tr := tr ++ [Event.cout ("\n=== Discovered Bluetooth Devices ===" ++ "\n")]
    let tr := tr ++ [Event.cout ("Found " ++ toString devices.length ++ " device(s):\n" ++ "\n")]
    if devices.isEmpty then
      tr ++ [Event.cout ("No devices found." ++ "\n")]
    else
      reportLoop env devices 1 tr

/-- Function `main`: the exit code and everything the run did. -/
def main (env : Service) : Int × Trace :=
  match construct env [] with
  | (Except.ok _, tr) => (0, scanForDevices env 30 tr)
  | (Except.error what, tr) => (1, cerrLine "Error: " (some what) tr)

/-! ## Closed forms used in the statements -/

/-- What the loop of `getDiscoveredDevices` collects from the entries still
ahead, in closed form: it takes the matching paths entry by entry and stops
behind the first entry on which a read fails. -/
def collected : List Entry → List String
  | [] => []
  | e :: es =>
    match e.path, e.interfaces with
    | some p, some _ =>
      (if find p "/org/bluez/hci0/dev_" ≠ none then [p] else []) ++ collected es
    | some p, none => if find p "/org/bluez/hci0/dev_" ≠ none then [p] else []
    | none, _ => []

/-- A dict entry that sd-bus reads without error. -/
def Entry.wellFormed (path : String) (interfaces : InterfaceMap) : Entry :=
  { path := some path, interfaces := some interfaces }

/-- The value a property read resolves to, in the words of the specification:
the sentinel on a call error, on a reply that cannot be read, or when no string
was produced, and the string of the reply otherwise. -/
def resolved (sentinel : String) (reply : PropertyReply) : String :=
  if reply.r < 0 ∨ reply.readR < 0 then sentinel else reply.value.getD sentinel

/-- The two `Properties.Get` calls issued for one device. -/
def propertyCalls (p : String) : List Event :=
  [Event.call "org.bluez" p "org.freedesktop.DBus.Properties" "Get" ["org.bluez.Device1", "Name"],
   Event.call "org.bluez" p "org.freedesktop.DBus.Properties" "Get"
     ["org.bluez.Device1", "Address"]]

/-- The four lines of the report entry with number `k + 1` for path `p`, when
the first `Properties.Get` call of the report is method call number `base`. -/
def entryLines (env : Service) (base k : Nat) (p : String) : List String :=
  [toString (k + 1) ++ ". " ++ resolved "Unknown Device" (env.propertiesGet (base + 2 * k) p "Name")
     ++ "\n",
   "   Address: "
     ++ resolved "Unknown Address" (env.propertiesGet (base + 2 * k + 1) p "Address") ++ "\n",
   "   Path: " ++ p ++ "\n",
   "\n"]

/-- Everything the report loop does for the paths `devices`, numbered from
`k + 1` on: per path the two property reads, then the four lines of its entry. -/
def reportEvents (env : Service) (base k : Nat) (devices : List String) : List Event :=
  (devices.enumFrom k).flatMap fun kp =>
    propertyCalls kp.2 ++ (entryLines env base kp.1 kp.2).map Event.cout

/-- What `stopDiscovery` prints after its call, on standard error when the
call failed and on standard output when it succeeded; `bad` tells whether
`std::cerr` has already failed. -/
def stopEvents (res : CallResult) (bad : Bool) : List Event :=
  if res.r < 0 then cerrEvents "Failed to stop discovery: " res.message bad
  else [Event.cout ("Discovery stopped." ++ "\n")]

/-- Everything `getDiscoveredDevices` adds to the trace: its call and, when the
call failed, what the error statement writes. -/
def enumerationEvents (env : Service) (bad : Bool) : List Event :=
  Event.call "org.bluez" "/" "org.freedesktop.DBus.ObjectManager" "GetManagedObjects" [] ::
    (if env.getManagedObjects.r < 0 then
      cerrEvents "Failed to get managed objects: " env.getManagedObjects.message bad
    else [])

/-- The part of a successful scan that follows the stop call and its line;
`bad` tells whether `std::cerr` has failed by then. -/
def afterStop (env : Service) (base : Nat) (bad : Bool) : List Event :=
  enumerationEvents env bad
    ++ [Event.cout ("\n=== Discovered Bluetooth Devices ===" ++ "\n"),
      Event.cout ("Found " ++ toString (getDiscoveredDevices env []).1.length
        ++ " device(s):\n" ++ "\n")]
    ++ (if (getDiscoveredDevices env []).1 = [] then [Event.cout ("No devices found." ++ "\n")]
        else reportEvents env base 0 (getDiscoveredDevices env []).1)

/-- Whether `s` starts with `pre`, character by character. -/
def startsWith (s pre : String) : Bool := pre.data.isPrefixOf s.data

/-! ## Sample services -/

/-- A property oracle under which no property can be read. -/
def unreadable : Nat → String → String → PropertyReply :=
  fun _ _ _ => { r := -1, readR := 0, value := none }

/-- Two devices and the adapter itself are reported; the stop call fails; the
name and address of the first device are readable, those of the second are not. -/
def demoService : Service where
  openSystem := 0
  strerror := fun _ => "Unknown error"
  startDiscovery := { r := 0, message := none }
  stopDiscovery := { r := -1, message := some "Operation not permitted" }
  getManagedObjects :=
    { r := 0, message := none,
      body := some
        [Entry.wellFormed "/org/bluez/hci0" [("org.bluez.Adapter1", [])],
         Entry.wellFormed "/org/bluez/hci0/dev_AA"
           [("org.bluez.Device1", [("Name", Variant.str "Phone")])],
         Entry.wellFormed "/org/bluez/hci0/dev_BB" []] }
  propertiesGet := fun n _ _ =>
    if n = 3 then { r := 0, readR := 1, value := some "Phone" }
    else if n = 4 then { r := 0, readR := 1, value := some "AA:BB:CC:DD:EE:FF" }
    else { r := -1, readR := 0, value := none }

/-- The reply holds one object whose path has the device pattern further in. -/
def strayService : Service where
  openSystem := 0
  strerror := fun _ => "Unknown error"
  startDiscovery := { r := 0, message := none }
  stopDiscovery := { r := 0, message := none }
  getManagedObjects :=
    { r := 0, message := none, body := some [Entry.wellFormed "/x/org/bluez/hci0/dev_AA" []] }
  propertiesGet := unreadable

/-- The first entry has a readable path and an interface map that cannot be
skipped; the second entry is well formed. -/
def brokenMapService : Service where
  openSystem := 0
  strerror := fun _ => "Unknown error"
  startDiscovery := { r := 0, message := none }
  stopDiscovery := { r := 0, message := none }
  getManagedObjects :=
    { r := 0, message := none,
      body := some
        [{ path := some "/org/bluez/hci0/dev_AA", interfaces := none },
         Entry.wellFormed "/org/bluez/hci0/dev_BB" []] }
  propertiesGet := unreadable

/-- The second entry has a path that cannot be read; the entries around it
are well formed. -/
def brokenPathService : Service where
  openSystem := 0
  strerror := fun _ => "Unknown error"
  startDiscovery := { r := 0, message := none }
  stopDiscovery := { r := 0, message := none }
  getManagedObjects :=
    { r := 0, message := none,
      body := some
        [Entry.wellFormed "/org/bluez/hci0/dev_AA" [],
         { path := none, interfaces := some [] },
         Entry.wellFormed "/org/bluez/hci0/dev_BB" []] }
  propertiesGet := unreadable

/-- The `StartDiscovery` call fails. -/
def noStartService : Service where
  openSystem := 0
  strerror := fun _ => "Unknown error"
  startDiscovery := { r := -16, message := some "Resource Not Ready" }
  stopDiscovery := { r := 0, message := none }
  getManagedObjects :=
    { r := 0, message := none, body := some [Entry.wellFormed "/org/bluez/hci0/dev_AA" []] }
  propertiesGet := unreadable

/-- The system bus cannot be opened. -/
def noBusService : Service where
  openSystem := -2
  strerror := fun _ => "No such file or directory"
  startDiscovery := { r := 0, message := none }
  stopDiscovery := { r := 0, message := none }
  getManagedObjects :=
    { r := 0, message := none, body := some [Entry.wellFormed "/org/bluez/hci0/dev_AA" []] }
  propertiesGet := unreadable

/-- The `GetManagedObjects` call fails. -/
def noObjectsService : Service where
  openSystem := 0
  strerror := fun _ => "Unknown error"
  startDiscovery := { r := 0, message := none }
  stopDiscovery := { r := 0, message := none }
  getManagedObjects := { r := -110, message := some "Connection timed out", body := none }
  propertiesGet := unreadable

/-- The `StopDiscovery` call fails with an error that carries no text, and the
`GetManagedObjects` call fails after it. -/
def silentStopService : Service where
  openSystem := 0
  strerror := fun _ => "Unknown error"
  startDiscovery := { r := 0, message := none }
  stopDiscovery := { r := -1, message := none }
  getManagedObjects := { r := -110, message := some "Connection timed out", body := none }
  propertiesGet := unreadable

/-- The reply holds the adapter and no device. -/
def adapterOnlyService : Service where
  openSystem := 0
  strerror := fun _ => "Unknown error"
  startDiscovery := { r := 0, message := none }
  stopDiscovery := { r := 0, message := none }
  getManagedObjects :=
    { r := 0, message := none,
      body := some [Entry.wellFormed "/org/bluez" [], Entry.wellFormed "/org/bluez/hci0" []] }
  propertiesGet := unreadable

/-! ## Projections of a trace -/

@[simp] theorem callsOf_append (a b : Trace) : callsOf (a ++ b) = callsOf a ++ callsOf b := by
  induction a with
  | nil => rfl
  | cons e t ih => cases e <;> simp [callsOf, ih]

@[simp] theorem sleepsOf_append (a b : Trace) : sleepsOf (a ++ b) = sleepsOf a ++ sleepsOf b := by
  induction a with
  | nil => rfl
  | cons e t ih => cases e <;> simp [sleepsOf, ih]

@[simp] theorem coutOf_append (a b : Trace) : coutOf (a ++ b) = coutOf a ++ coutOf b := by
  induction a with
  | nil => rfl
  | cons e t ih => cases e <;> simp [coutOf, ih]

@[simp] theorem cerrOf_append (a b : Trace) : cerrOf (a ++ b) = cerrOf a ++ cerrOf b := by
  induction a with
  | nil => rfl
  | cons e t ih => cases e <;> simp [cerrOf, ih]

@[simp] theorem actionsOf_append (a b : Trace) :
    actionsOf (a ++ b) = actionsOf a ++ actionsOf b := by
  induction a with
  | nil => rfl
  | cons e t ih => cases e <;> simp [actionsOf, ih]

@[simp] theorem callsIssued_append (a b : Trace) :
    callsIssued (a ++ b) = callsIssued a + callsIssued b := by
  simp [callsIssued]

@[simp] theorem cerrBad_append (a b : Trace) : cerrBad (a ++ b) = (cerrBad a || cerrBad b) := by
  induction a with
  | nil => simp [cerrBad]
  | cons e t ih => cases e <;> simp [cerrBad, ih]

theorem callsOf_cerrEvents (pre : String) (message : Option String) (bad : Bool) :
    callsOf (cerrEvents pre message bad) = [] := by
  cases bad <;> cases message <;> simp [cerrEvents, callsOf]

theorem actionsOf_cerrEvents (pre : String) (message : Option String) (bad : Bool) :
    actionsOf (cerrEvents pre message bad) = [] := by
  cases bad <;> cases message <;> simp [cerrEvents, actionsOf]

theorem sleepsOf_cerrEvents (pre : String) (message : Option String) (bad : Bool) :
    sleepsOf (cerrEvents pre message bad) = [] := by
  cases bad <;> cases message <;> simp [cerrEvents, sleepsOf]

theorem coutOf_cerrEvents (pre : String) (message : Option String) (bad : Bool) :
    coutOf (cerrEvents pre message bad) = [] := by
  cases bad <;> cases message <;> simp [cerrEvents, coutOf]

/-- What reaches standard error from one error statement on a stream that has
not failed: the whole line when the error has a text, the text before the
message and nothing else when the message is the null pointer. -/
theorem cerrOf_cerrEvents (pre : String) (message : Option String) :
    cerrOf (cerrEvents pre message false) =
      [match message with
        | some text => pre ++ text ++ "\n"
        | none => pre] := by
  cases message <;> simp [cerrEvents, cerrOf]

/-- A stream that has failed writes nothing. -/
theorem cerrEvents_bad (pre : String) (message : Option String) :
    cerrEvents pre message true = [] := by
  simp [cerrEvents]

/-! ## `std::string::find` finds exactly the substrings -/

theorem findFrom_ne_none (needle : List Char) (s : List Char) (pos : Nat) :
    findFrom needle s pos ≠ none ↔ ∃ pre post, s = pre ++ needle ++ post := by
  induction s generalizing pos with
  | nil =>
    by_cases h : needle = []
    · simp [findFrom, h]
    · simp [findFrom, h]
  | cons c cs ih =>
    unfold findFrom
    by_cases h : needle.isPrefixOf (c :: cs) = true
    · rw [if_pos h]
      simp only [ne_eq, reduceCtorEq, not_false_eq_true, true_iff]
      obtain ⟨post, hp⟩ := List.isPrefixOf_iff_prefix.mp h
      exact ⟨[], post, by simp [hp]⟩
    · rw [if_neg h, ih]
      constructor
      · rintro ⟨pre, post, e⟩
        exact ⟨c :: pre, post, by simp [e]⟩
      · rintro ⟨pre, post, e⟩
        cases pre with
        | nil =>
          exfalso
          apply h
          exact List.isPrefixOf_iff_prefix.mpr ⟨post, by simpa using e.symm⟩
        | cons a pre =>
          simp only [List.cons_append, List.cons.injEq] at e
          exact ⟨pre, post, e.2⟩

/-- The call `s.find(needle)` finds something exactly when `needle` occurs somewhere in `s`. -/
theorem find_ne_none (s needle : String) :
    find s needle ≠ none ↔ ∃ pre post, s.data = pre ++ needle.data ++ post :=
  findFrom_ne_none needle.data s.data 0

/-! ## The loop of `getDiscoveredDevices` -/

/-- Once the cursor is inside an entry at the start of a round, the loop ends at once. -/
theorem getDiscoveredDevicesLoop_inside (fuel : Nat) (es : List Entry) (c : Cursor)
    (hc : c ≠ Cursor.between) (op : Option String) (devs : List String) :
    getDiscoveredDevicesLoop (fuel + 1) { entries := es, cursor := c } op devs = some devs := by
  cases c <;> simp_all [getDiscoveredDevicesLoop, enterEntry]

/-- With at least one unit of fuel per entry and one more, the loop ends and
returns what `collected` describes; the amount of fuel beyond that is
irrelevant. -/
theorem getDiscoveredDevicesLoop_fuel (es : List Entry) :
    ∀ (fuel : Nat) (op : Option String) (devs : List String), es.length + 1 ≤ fuel →
      getDiscoveredDevicesLoop fuel { entries := es, cursor := Cursor.between } op devs
        = some (devs ++ collected es) := by
  induction es with
  | nil =>
    intro fuel op devs h
    obtain ⟨n, rfl⟩ : ∃ n, fuel = n + 1 := ⟨fuel - 1, by simp at h; omega⟩
    simp [getDiscoveredDevicesLoop, enterEntry, collected]
  | cons e es ih =>
    intro fuel op devs h
    obtain ⟨n, rfl⟩ : ∃ n, fuel = n + 2 := ⟨fuel - 2, by simp at h; omega⟩
    have hn : es.length + 1 ≤ n + 1 := by simp at h; omega
    rcases e with ⟨_ | p, _ | m⟩
    · rw [getDiscoveredDevicesLoop]
      simp [enterEntry, readObjectPath, skipInterfaces, exitContainer, collected,
        getDiscoveredDevicesLoop_inside]
    · rw [getDiscoveredDevicesLoop]
      simp [enterEntry, readObjectPath, skipInterfaces, exitContainer, collected,
        getDiscoveredDevicesLoop_inside]
    · rw [getDiscoveredDevicesLoop]
      simp [enterEntry, readObjectPath, skipInterfaces, exitContainer, collected,
        getDiscoveredDevicesLoop_inside]
      split <;> simp_all
    · rw [getDiscoveredDevicesLoop]
      simp only [enterEntry, readObjectPath, skipInterfaces, exitContainer, collected]
      simp only [Int.reduceLT, Int.reduceLE, ge_iff_le, if_true, ite_true]
      rw [ih (n + 1) _ _ hn]
      by_cases hf : find p "/org/bluez/hci0/dev_" = none <;> simp [hf]

/-- Method `getDiscoveredDevices` in closed form. -/
theorem getDiscoveredDevices_eq (env : Service) (tr : Trace) :
    getDiscoveredDevices env tr =
      (if env.getManagedObjects.r < 0 then []
        else (env.getManagedObjects.body.map collected).getD [],
       tr ++ enumerationEvents env (cerrBad tr)) := by
  unfold getDiscoveredDevices
  by_cases h : env.getManagedObjects.r < 0
  · simp [h, cerrLine, enumerationEvents, cerrBad]
  · simp only [h, if_false]
    cases hb : env.getManagedObjects.body with
    | none => simp [enumerationEvents, h]
    | some es =>
      simp [getDiscoveredDevicesLoop_fuel es _ none [] (le_refl _), enumerationEvents, h]

/-- The enumeration result does not depend on the trace. -/
theorem getDiscoveredDevices_fst (env : Service) (tr : Trace) :
    (getDiscoveredDevices env tr).1 = (getDiscoveredDevices env []).1 := by
  rw [getDiscoveredDevices_eq env tr, getDiscoveredDevices_eq env []]

/-- The enumeration adds its call and, when the call failed, its error line. -/
theorem getDiscoveredDevices_trace (env : Service) (tr : Trace) :
    getDiscoveredDevices env tr =
      ((getDiscoveredDevices env []).1, tr ++ enumerationEvents env (cerrBad tr)) := by
  rw [getDiscoveredDevices_eq env tr, getDiscoveredDevices_eq env []]

/-! ## Property reads and the report loop -/

theorem getDeviceName_eq (env : Service) (p : String) (tr : Trace) :
    getDeviceName env p tr =
      (resolved "Unknown Device" (env.propertiesGet (callsIssued tr) p "Name"),
        tr ++ [Event.call "org.bluez" p "org.freedesktop.DBus.Properties" "Get"
          ["org.bluez.Device1", "Name"]]) := by
  unfold getDeviceName resolved
  by_cases h : (env.propertiesGet (callsIssued tr) p "Name").r < 0
  · simp [h]
  · by_cases h2 : (env.propertiesGet (callsIssued tr) p "Name").readR < 0
    · cases hv : (env.propertiesGet (callsIssued tr) p "Name").value <;> simp [h, h2, hv]
    · cases hv : (env.propertiesGet (callsIssued tr) p "Name").value <;>
        simp [h, h2, hv, not_lt.mp h2]

theorem getDeviceAddress_eq (env : Service) (p : String) (tr : Trace) :
    getDeviceAddress env p tr =
      (resolved "Unknown Address" (env.propertiesGet (callsIssued tr) p "Address"),
        tr ++ [Event.call "org.bluez" p "org.freedesktop.DBus.Properties" "Get"
          ["org.bluez.Device1", "Address"]]) := by
  unfold getDeviceAddress resolved
  by_cases h : (env.propertiesGet (callsIssued tr) p "Address").r < 0
  · simp [h]
  · by_cases h2 : (env.propertiesGet (callsIssued tr) p "Address").readR < 0
    · cases hv : (env.propertiesGet (callsIssued tr) p "Address").value <;> simp [h, h2, hv]
    · cases hv : (env.propertiesGet (callsIssued tr) p "Address").value <;>
        simp [h, h2, hv, not_lt.mp h2]

theorem toString_count (k : Nat) : toString ((k : Int) + 1) = toString (k + 1) := by
  have h : ((k : Int) + 1) = ((k + 1 : Nat) : Int) := by push_cast; rfl
  rw [h]
  rfl

/-- The report loop in closed form: started with counter `k + 1` after
`base + 2 * k` method calls, it appends `reportEvents env base k devices`. -/
theorem reportLoop_eq (env : Service) (base : Nat) (devices : List String) :
    ∀ (k : Nat) (tr : Trace), callsIssued tr = base + 2 * k →
      reportLoop env devices ((k : Int) + 1) tr = tr ++ reportEvents env base k devices := by
  induction devices with
  | nil => intro k tr _; simp [reportLoop, reportEvents]
  | cons p rest ih =>
    intro k tr h
    have hk : ((k : Int) + 1 + 1) = (((k + 1 : Nat) : Int) + 1) := by push_cast; rfl
    rw [reportLoop]
    simp only [getDeviceName_eq, getDeviceAddress_eq]
    have h' : (callsOf tr).length = base + 2 * k := h
    rw [hk, ih (k + 1)]
    · simp [reportEvents, List.enumFrom_cons, propertyCalls, entryLines, toString_count, h',
        callsIssued, callsOf]
    · simp [callsIssued, callsOf] at h ⊢
      omega

/-! ## `scanForDevices` in closed form -/

theorem callsOf_enumerationEvents (env : Service) (bad : Bool) :
    callsOf (enumerationEvents env bad) =
      [Event.call "org.bluez" "/" "org.freedesktop.DBus.ObjectManager" "GetManagedObjects" []] := by
  unfold enumerationEvents
  by_cases h : env.getManagedObjects.r < 0 <;> simp [h, callsOf, callsOf_cerrEvents]

theorem actionsOf_enumerationEvents (env : Service) (bad : Bool) :
    actionsOf (enumerationEvents env bad) =
      [Event.call "org.bluez" "/" "org.freedesktop.DBus.ObjectManager" "GetManagedObjects" []] := by
  unfold enumerationEvents
  by_cases h : env.getManagedObjects.r < 0 <;> simp [h, actionsOf, actionsOf_cerrEvents]

theorem coutOf_enumerationEvents (env : Service) (bad : Bool) :
    coutOf (enumerationEvents env bad) = [] := by
  unfold enumerationEvents
  by_cases h : env.getManagedObjects.r < 0 <;> simp [h, coutOf, coutOf_cerrEvents]

theorem actionsOf_stopEvents (res : CallResult) (bad : Bool) :
    actionsOf (stopEvents res bad) = [] := by
  unfold stopEvents
  by_cases h : res.r < 0 <;> simp [h, actionsOf, actionsOf_cerrEvents]

theorem callsOf_stopEvents (res : CallResult) (bad : Bool) :
    callsOf (stopEvents res bad) = [] := by
  unfold stopEvents
  by_cases h : res.r < 0 <;> simp [h, callsOf, callsOf_cerrEvents]

theorem coutOf_stopEvents (res : CallResult) (bad : Bool) :
    coutOf (stopEvents res bad) = if res.r < 0 then [] else ["Discovery stopped." ++ "\n"] := by
  unfold stopEvents
  by_cases h : res.r < 0 <;> simp [h, coutOf, coutOf_cerrEvents]

/-- A scan whose `StartDiscovery` call fails. -/
theorem scanForDevices_not_started (env : Service) (d : Int) (tr : Trace)
    (h : env.startDiscovery.r < 0) :
    scanForDevices env d tr =
      tr ++ [Event.cout ("Starting Bluetooth device scan for " ++ toString d ++ " seconds..."
          ++ "\n"),
        Event.call "org.bluez" "/org/bluez/hci0" "org.bluez.Adapter1" "StartDiscovery" []]
      ++ cerrEvents "Failed to start discovery: " env.startDiscovery.message (cerrBad tr) := by
  simp [scanForDevices, startDiscovery, h, cerrLine, cerrBad]

/-- A scan whose `StartDiscovery` call succeeds. -/
theorem scanForDevices_started (env : Service) (d : Int) (tr : Trace)
    (h : 0 ≤ env.startDiscovery.r) :
    scanForDevices env d tr =
      tr ++ [Event.cout ("Starting Bluetooth device scan for " ++ toString d ++ " seconds..."
          ++ "\n"),
        Event.call "org.bluez" "/org/bluez/hci0" "org.bluez.Adapter1" "StartDiscovery" [],
        Event.cout ("Discovery started..." ++ "\n"),
        Event.sleep d,
        Event.call "org.bluez" "/org/bluez/hci0" "org.bluez.Adapter1" "StopDiscovery" []]
      ++ stopEvents env.stopDiscovery (cerrBad tr)
      ++ afterStop env (callsIssued tr + 3)
          (cerrBad tr || cerrBad (stopEvents env.stopDiscovery (cerrBad tr))) := by
  have hs : ¬ env.startDiscovery.r < 0 := not_lt.mpr h
  unfold scanForDevices
  simp only [startDiscovery, stopDiscovery, hs, if_false, Bool.not_true, Bool.false_eq_true]
  generalize hpre : (tr ++ [Event.cout ("Starting Bluetooth device scan for " ++ toString d
      ++ " seconds..." ++ "\n")] ++
      [Event.call "org.bluez" "/org/bluez/hci0" "org.bluez.Adapter1" "StartDiscovery" []] ++
      [Event.cout ("Discovery started..." ++ "\n")] ++ [Event.sleep d] ++
      [Event.call "org.bluez" "/org/bluez/hci0" "org.bluez.Adapter1" "StopDiscovery" []]) = pre
  have hpc : callsIssued pre = callsIssued tr + 2 := by
    rw [← hpre]; simp [callsIssued, callsOf]
  have hpb : cerrBad pre = cerrBad tr := by
    rw [← hpre]; simp [cerrBad]
  have hstop : (if env.stopDiscovery.r < 0 then
        (false, cerrLine "Failed to stop discovery: " env.stopDiscovery.message pre)
      else (true, pre ++ [Event.cout ("Discovery stopped." ++ "\n")])).2
      = pre ++ stopEvents env.stopDiscovery (cerrBad tr) := by
    unfold stopEvents
    by_cases h2 : env.stopDiscovery.r < 0 <;> simp [h2, cerrLine, hpb]
  have hsc : callsIssued (stopEvents env.stopDiscovery (cerrBad tr)) = 0 := by
    simp [callsIssued, callsOf_stopEvents]
  simp only [hstop]
  rw [getDiscoveredDevices_trace env (pre ++ stopEvents env.stopDiscovery (cerrBad tr))]
  simp only [cerrBad_append, hpb]
  by_cases he : (getDiscoveredDevices env []).1 = []
  · simp [he, ← hpre, afterStop]
  · have hne : (getDiscoveredDevices env []).1.isEmpty = false := by
      simpa [List.isEmpty_iff] using he
    simp only [hne, he, if_false, Bool.false_eq_true]
    have h1 : ((1 : Int)) = ((0 : Nat) : Int) + 1 := by simp
    rw [h1, reportLoop_eq env (callsIssued tr + 3) _ 0]
    · simp [← hpre, afterStop, he]
    · have hec : callsIssued (enumerationEvents env
          (cerrBad tr || cerrBad (stopEvents env.stopDiscovery (cerrBad tr)))) = 1 := by
        unfold callsIssued
        rw [callsOf_enumerationEvents]
        rfl
      have hcc : callsIssued
          ([Event.cout ("\n=== Discovered Bluetooth Devices ===" ++ "\n")] : Trace) = 0 := rfl
      have hcf : callsIssued ([Event.cout ("Found "
          ++ toString (getDiscoveredDevices env []).1.length ++ " device(s):\n" ++ "\n")] : Trace)
          = 0 := rfl
      simp only [callsIssued_append, hpc, hsc, hec, hcc, hcf]

/-! ## Projections of the parts of a scan -/

theorem reportEvents_nil (env : Service) (base k : Nat) : reportEvents env base k [] = [] := rfl

theorem reportEvents_cons (env : Service) (base k : Nat) (p : String) (rest : List String) :
    reportEvents env base k (p :: rest) =
      propertyCalls p ++ (entryLines env base k p).map Event.cout
        ++ reportEvents env base (k + 1) rest := by
  simp [reportEvents, List.enumFrom_cons, List.flatMap_cons]

theorem actionsOf_reportEvents (env : Service) (base : Nat) (devices : List String) :
    ∀ k, actionsOf (reportEvents env base k devices) = devices.flatMap propertyCalls := by
  induction devices with
  | nil => intro k; simp [reportEvents_nil, actionsOf]
  | cons p rest ih =>
    intro k
    rw [reportEvents_cons, actionsOf_append, actionsOf_append, ih (k + 1)]
    simp [propertyCalls, entryLines, actionsOf, List.enumFrom_cons, List.flatMap_cons]

theorem callsOf_reportEvents (env : Service) (base : Nat) (devices : List String) :
    ∀ k, callsOf (reportEvents env base k devices) = devices.flatMap propertyCalls := by
  induction devices with
  | nil => intro k; simp [reportEvents_nil, callsOf]
  | cons p rest ih =>
    intro k
    rw [reportEvents_cons, callsOf_append, callsOf_append, ih (k + 1)]
    simp [propertyCalls, entryLines, callsOf, List.enumFrom_cons, List.flatMap_cons]

theorem coutOf_reportEvents (env : Service) (base : Nat) (devices : List String) :
    ∀ k, coutOf (reportEvents env base k devices) =
      (devices.enumFrom k).flatMap fun kp => entryLines env base kp.1 kp.2 := by
  induction devices with
  | nil => intro k; simp [reportEvents_nil, coutOf]
  | cons p rest ih =>
    intro k
    rw [reportEvents_cons, coutOf_append, coutOf_append, ih (k + 1)]
    simp [propertyCalls, entryLines, coutOf, List.enumFrom_cons, List.flatMap_cons]

theorem cerrOf_reportEvents (env : Service) (base : Nat) (devices : List String) :
    ∀ k, cerrOf (reportEvents env base k devices) = [] := by
  induction devices with
  | nil => intro k; simp [reportEvents_nil, cerrOf]
  | cons p rest ih =>
    intro k
    rw [reportEvents_cons, cerrOf_append, cerrOf_append, ih (k + 1)]
    simp [propertyCalls, entryLines, cerrOf, List.enumFrom_cons, List.flatMap_cons]

theorem actionsOf_afterStop (env : Service) (base : Nat) (bad : Bool) :
    actionsOf (afterStop env base bad) =
      [Event.call "org.bluez" "/" "org.freedesktop.DBus.ObjectManager" "GetManagedObjects" []]
        ++ (getDiscoveredDevices env []).1.flatMap propertyCalls := by
  unfold afterStop
  rw [actionsOf_append, actionsOf_append, actionsOf_enumerationEvents]
  by_cases he : (getDiscoveredDevices env []).1 = []
  · simp [he, actionsOf]
  · simp [he, actionsOf_reportEvents, actionsOf]

theorem callsOf_afterStop (env : Service) (base : Nat) (bad : Bool) :
    callsOf (afterStop env base bad) =
      [Event.call "org.bluez" "/" "org.freedesktop.DBus.ObjectManager" "GetManagedObjects" []]
        ++ (getDiscoveredDevices env []).1.flatMap propertyCalls := by
  unfold afterStop
  rw [callsOf_append, callsOf_append, callsOf_enumerationEvents]
  by_cases he : (getDiscoveredDevices env []).1 = []
  · simp [he, callsOf]
  · simp [he, callsOf_reportEvents, callsOf]

theorem coutOf_afterStop (env : Service) (base : Nat) (bad : Bool) :
    coutOf (afterStop env base bad) =
      ["\n=== Discovered Bluetooth Devices ===" ++ "\n",
        "Found " ++ toString (getDiscoveredDevices env []).1.length ++ " device(s):\n" ++ "\n"]
      ++ (if (getDiscoveredDevices env []).1 = [] then ["No devices found." ++ "\n"]
          else (getDiscoveredDevices env []).1.enum.flatMap fun kp =>
            entryLines env base kp.1 kp.2) := by
  unfold afterStop
  rw [coutOf_append, coutOf_append, coutOf_enumerationEvents]
  by_cases he : (getDiscoveredDevices env []).1 = []
  · simp [he, coutOf]
  · simp [he, coutOf_reportEvents, coutOf, List.enum]

theorem afterStop_stopDiscovery (env : Service) (s : CallResult) (base : Nat) (bad : Bool) :
    afterStop { env with stopDiscovery := s } base bad = afterStop env base bad := rfl

/-- The calls and sleeps of a started scan, and its standard output: they do
not depend on the outcome `s` of the stop call, except for the line
"Discovery stopped." itself. -/
theorem scanForDevices_actions (env : Service) (d : Int) (tr : Trace)
    (h : 0 ≤ env.startDiscovery.r) (s : CallResult) :
    actionsOf (scanForDevices { env with stopDiscovery := s } d tr) =
        actionsOf tr ++
          [Event.call "org.bluez" "/org/bluez/hci0" "org.bluez.Adapter1" "StartDiscovery" [],
           Event.sleep d,
           Event.call "org.bluez" "/org/bluez/hci0" "org.bluez.Adapter1" "StopDiscovery" [],
           Event.call "org.bluez" "/" "org.freedesktop.DBus.ObjectManager" "GetManagedObjects" []]
          ++ (getDiscoveredDevices env []).1.flatMap propertyCalls ∧
      coutOf (scanForDevices { env with stopDiscovery := s } d tr) =
        coutOf tr ++ ["Starting Bluetooth device scan for " ++ toString d ++ " seconds..."
            ++ "\n", "Discovery started..." ++ "\n"]
          ++ (if s.r < 0 then [] else ["Discovery stopped." ++ "\n"])
          ++ coutOf (afterStop env (callsIssued tr + 3) false) := by
  rw [scanForDevices_started { env with stopDiscovery := s } d tr h, afterStop_stopDiscovery]
  constructor
  · simp only [actionsOf_append, actionsOf_stopEvents, actionsOf_afterStop]
    simp [actionsOf]
  · simp only [coutOf_append, coutOf_stopEvents, coutOf_afterStop]
    simp [coutOf]

/-! ## Enumeration: which paths are returned -/

/-- The list `getDiscoveredDevices` returns. -/
theorem getDiscoveredDevices_devices (env : Service) (tr : Trace) :
    (getDiscoveredDevices env tr).1 =
      if env.getManagedObjects.r < 0 then []
      else (env.getManagedObjects.body.map collected).getD [] := by
  rw [getDiscoveredDevices_eq]

theorem collected_matches (es : List Entry) :
    ∀ p ∈ collected es, find p "/org/bluez/hci0/dev_" ≠ none := by
  induction es with
  | nil => simp [collected]
  | cons e es ih =>
    intro p hp
    rcases e with ⟨_ | q, _ | m⟩
    · simp [collected] at hp
    · simp [collected] at hp
    · by_cases hq : find q "/org/bluez/hci0/dev_" = none
      · simp [collected, hq] at hp
      · simp only [collected, ne_eq, hq, not_false_eq_true, if_true, List.mem_singleton] at hp
        rw [hp]; exact hq
    · by_cases hq : find q "/org/bluez/hci0/dev_" = none
      · simp only [collected, ne_eq, hq, not_true_eq_false, if_false, List.nil_append] at hp
        exact ih p hp
      · simp only [collected, ne_eq, hq, not_false_eq_true, if_true, List.singleton_append,
          List.mem_cons] at hp
        rcases hp with hp | hp
        · rw [hp]; exact hq
        · exact ih p hp

theorem collected_wellFormed (objs : List (String × InterfaceMap)) (rest : List Entry) :
    collected (objs.map (fun o => Entry.wellFormed o.1 o.2) ++ rest) =
      (objs.map Prod.fst).filter (fun p => decide (find p "/org/bluez/hci0/dev_" ≠ none))
        ++ collected rest := by
  induction objs with
  | nil => simp
  | cons o objs ih =>
    have hc : collected (List.map (fun o => Entry.wellFormed o.1 o.2) (o :: objs) ++ rest) =
        (if find o.1 "/org/bluez/hci0/dev_" ≠ none then [o.1] else []) ++
          collected (List.map (fun o => Entry.wellFormed o.1 o.2) objs ++ rest) := rfl
    rw [hc, ih]
    by_cases hq : find o.1 "/org/bluez/hci0/dev_" = none
    · simp [List.filter_cons, hq]
    · simp [List.filter_cons, hq]

theorem startsWith_find (p pre : String) (h : startsWith p pre = true) : find p pre ≠ none := by
  rw [find_ne_none]
  obtain ⟨post, hp⟩ := List.isPrefixOf_iff_prefix.mp h
  exact ⟨[], post, by simp [hp]⟩

/-- C1, as stated, fails: a well-formed reply with the single object path
"/x/org/bluez/hci0/dev_AA" makes `getDiscoveredDevices` return that path, which
does not start with "/org/bluez/hci0/dev_". -/
theorem getDiscoveredDevices_returns_stray_path :
    "/x/org/bluez/hci0/dev_AA" ∈ (getDiscoveredDevices strayService []).1 ∧
      startsWith "/x/org/bluez/hci0/dev_AA" "/org/bluez/hci0/dev_" = false := by
  decide

/-- C1, amended: every path returned by `getDiscoveredDevices` contains the
text "/org/bluez/hci0/dev_" somewhere (the test is `find(...) != npos`, not a
test of the start of the path); a path that does not contain it is never
returned. This holds for every reply, well formed or not, and every outcome
of the call. -/
theorem getDiscoveredDevices_paths_contain_pattern (env : Service) (tr : Trace) (p : String)
    (hp : p ∈ (getDiscoveredDevices env tr).1) :
    find p "/org/bluez/hci0/dev_" ≠ none ∧
      ∃ pre post, p.data = pre ++ "/org/bluez/hci0/dev_".data ++ post := by
  have hf : find p "/org/bluez/hci0/dev_" ≠ none := by
    rw [getDiscoveredDevices_devices] at hp
    by_cases h : env.getManagedObjects.r < 0
    · simp [h] at hp
    · cases hb : env.getManagedObjects.body with
      | none => simp [h, hb] at hp
      | some es =>
        simp only [h, hb, if_false, Option.map_some', Option.getD_some] at hp
        exact collected_matches es p hp
  exact ⟨hf, (find_ne_none p _).mp hf⟩

theorem getDiscoveredDevices_paths_contain_pattern_witness :
    "/x/org/bluez/hci0/dev_AA" ∈ (getDiscoveredDevices strayService []).1 ∧
      find "/x/org/bluez/hci0/dev_AA" "/org/bluez/hci0/dev_" ≠ none :=
  ⟨by decide,
    (getDiscoveredDevices_paths_contain_pattern strayService [] "/x/org/bluez/hci0/dev_AA"
      (by decide)).1⟩

/-- C2: for a well-formed reply (the call succeeds and every entry is read
without error) `getDiscoveredDevices` returns the object paths of the reply
that contain the device pattern, in reply order, each as often as it occurs:
a sublist of the reply's paths. Every entry whose path starts with
"/org/bluez/hci0/dev_" is included, and the interface maps play no part. -/
theorem getDiscoveredDevices_wellFormed (env : Service) (tr : Trace)
    (objs : List (String × InterfaceMap)) (hr : 0 ≤ env.getManagedObjects.r)
    (hb : env.getManagedObjects.body = some (objs.map fun o => Entry.wellFormed o.1 o.2)) :
    (getDiscoveredDevices env tr).1 =
        (objs.map Prod.fst).filter (fun p => decide (find p "/org/bluez/hci0/dev_" ≠ none)) ∧
      List.Sublist (getDiscoveredDevices env tr).1 (objs.map Prod.fst) ∧
      ∀ o ∈ objs, startsWith o.1 "/org/bluez/hci0/dev_" = true →
        o.1 ∈ (getDiscoveredDevices env tr).1 ∧
          List.count o.1 (getDiscoveredDevices env tr).1 = List.count o.1 (objs.map Prod.fst) := by
  have he : (getDiscoveredDevices env tr).1 =
      (objs.map Prod.fst).filter (fun p => decide (find p "/org/bluez/hci0/dev_" ≠ none)) := by
    rw [getDiscoveredDevices_devices]
    have h := collected_wellFormed objs []
    simp only [List.append_nil, collected] at h
    simp [not_lt.mpr hr, hb, h]
  refine ⟨he, ?_, ?_⟩
  · rw [he]; exact List.filter_sublist _
  · intro o ho hs
    have hf := startsWith_find o.1 _ hs
    rw [he]
    constructor
    · rw [List.mem_filter]
      exact ⟨List.mem_map_of_mem Prod.fst ho, by simpa using hf⟩
    · rw [List.count_filter]
      simpa using hf

theorem getDiscoveredDevices_wellFormed_witness :
    (getDiscoveredDevices demoService []).1 =
      ["/org/bluez/hci0/dev_AA", "/org/bluez/hci0/dev_BB"] :=
  (getDiscoveredDevices_wellFormed demoService []
    [("/org/bluez/hci0", [("org.bluez.Adapter1", [])]),
     ("/org/bluez/hci0/dev_AA", [("org.bluez.Device1", [("Name", Variant.str "Phone")])]),
     ("/org/bluez/hci0/dev_BB", [])] (by decide) (by rfl)).1.trans (by decide)

/-! ## Enumeration: malformed entries -/

theorem collected_malformed (bad : Entry) (rest : List Entry)
    (hbad : bad.path = none ∨ bad.interfaces = none) :
    collected (bad :: rest) =
      bad.path.toList.filter (fun p => decide (find p "/org/bluez/hci0/dev_" ≠ none)) := by
  rcases bad with ⟨_ | q, _ | m⟩
  · simp [collected]
  · simp [collected]
  · by_cases hq : find q "/org/bluez/hci0/dev_" = none <;> simp [collected, hq, List.filter_cons]
  · simp at hbad

/-- C3, as stated, fails: the first entry of the reply is malformed, its
path "/org/bluez/hci0/dev_AA" can be read and its interface map cannot be
skipped, and `getDiscoveredDevices` returns that path. -/
theorem getDiscoveredDevices_malformed_entry_counts :
    brokenMapService.getManagedObjects.body =
        some [{ path := some "/org/bluez/hci0/dev_AA", interfaces := none },
          Entry.wellFormed "/org/bluez/hci0/dev_BB" []] ∧
      "/org/bluez/hci0/dev_AA" ∈ (getDiscoveredDevices brokenMapService []).1 := by
  decide

/-- The loop of the source on a reply whose first malformed entry is `bad`:
the results of `sd_bus_message_skip` and `sd_bus_message_exit_container` are
not looked at, the cursor stays inside `bad`, and the next
`sd_bus_message_enter_container` ends the loop. -/
theorem getDiscoveredDevices_stops (env : Service) (tr : Trace)
    (good : List (String × InterfaceMap)) (bad : Entry) (rest : List Entry)
    (hr : 0 ≤ env.getManagedObjects.r)
    (hb : env.getManagedObjects.body =
      some ((good.map fun o => Entry.wellFormed o.1 o.2) ++ bad :: rest))
    (hbad : bad.path = none ∨ bad.interfaces = none) :
    (getDiscoveredDevices env tr).1 =
      (good.map Prod.fst).filter (fun p => decide (find p "/org/bluez/hci0/dev_" ≠ none))
        ++ bad.path.toList.filter (fun p => decide (find p "/org/bluez/hci0/dev_" ≠ none)) := by
  rw [getDiscoveredDevices_devices]
  simp only [not_lt.mpr hr, hb, if_false, Option.map_some', Option.getD_some]
  rw [collected_wellFormed good (bad :: rest), collected_malformed bad rest hbad]

/-- C3, amended: when the first malformed entry `bad` of the reply comes after
the well-formed entries `good`, the result of `getDiscoveredDevices` starts
with the matching paths of `good`, in order. Next comes the contribution of
`bad`: its own path when that path could be read and matches (so only its
interface map could not be skipped), and nothing when its path could not be
read; the path of the entry before it is not added again. Whatever follows
in the result is a selection, in order, of matching paths of the entries
`rest` behind `bad`; which of them are returned is not stated here. -/
theorem getDiscoveredDevices_malformed (env : Service) (tr : Trace)
    (good : List (String × InterfaceMap)) (bad : Entry) (rest : List Entry)
    (hr : 0 ≤ env.getManagedObjects.r)
    (hb : env.getManagedObjects.body =
      some ((good.map fun o => Entry.wellFormed o.1 o.2) ++ bad :: rest))
    (hbad : bad.path = none ∨ bad.interfaces = none) :
    ∃ tail : List String,
      List.Sublist tail ((rest.filterMap Entry.path).filter
        (fun p => decide (find p "/org/bluez/hci0/dev_" ≠ none))) ∧
      (getDiscoveredDevices env tr).1 =
        (good.map Prod.fst).filter (fun p => decide (find p "/org/bluez/hci0/dev_" ≠ none))
          ++ bad.path.toList.filter (fun p => decide (find p "/org/bluez/hci0/dev_" ≠ none))
          ++ tail := by
  refine ⟨[], List.nil_sublist _, ?_⟩
  rw [getDiscoveredDevices_stops env tr good bad rest hr hb hbad, List.append_nil]

theorem getDiscoveredDevices_malformed_witness :
    ∃ tail : List String,
      List.Sublist tail ["/org/bluez/hci0/dev_BB"] ∧
      (getDiscoveredDevices brokenPathService []).1 = ["/org/bluez/hci0/dev_AA"] ++ tail :=
  getDiscoveredDevices_malformed brokenPathService [] [("/org/bluez/hci0/dev_AA", [])]
    { path := none, interfaces := some [] }
    [Entry.wellFormed "/org/bluez/hci0/dev_BB" []] (by decide) (by rfl) (Or.inl rfl)

/-! ## Property reads -/

/-- C4: `getDeviceName` returns "Unknown Device" and `getDeviceAddress` returns
"Unknown Address" when the `Properties.Get` call fails, when the read of the
reply fails, or when the read produced no string, and the string of the reply
otherwise. Each of them issues its one method call and does nothing else (in
particular nothing goes to standard error), whatever the reply. So the report
loop goes on to the remaining paths after every device, with the same calls
issued before them, whatever was read for that device. -/
theorem getDeviceName_getDeviceAddress_sentinels (env : Service) (p : String) (tr : Trace) :
    (((env.propertiesGet (callsIssued tr) p "Name").r < 0 ∨
        (env.propertiesGet (callsIssued tr) p "Name").readR < 0 ∨
        (env.propertiesGet (callsIssued tr) p "Name").value = none) →
      (getDeviceName env p tr).1 = "Unknown Device") ∧
    (∀ s, 0 ≤ (env.propertiesGet (callsIssued tr) p "Name").r →
        0 ≤ (env.propertiesGet (callsIssued tr) p "Name").readR →
        (env.propertiesGet (callsIssued tr) p "Name").value = some s →
      (getDeviceName env p tr).1 = s) ∧
    (((env.propertiesGet (callsIssued tr) p "Address").r < 0 ∨
        (env.propertiesGet (callsIssued tr) p "Address").readR < 0 ∨
        (env.propertiesGet (callsIssued tr) p "Address").value = none) →
      (getDeviceAddress env p tr).1 = "Unknown Address") ∧
    (∀ s, 0 ≤ (env.propertiesGet (callsIssued tr) p "Address").r →
        0 ≤ (env.propertiesGet (callsIssued tr) p "Address").readR →
        (env.propertiesGet (callsIssued tr) p "Address").value = some s →
      (getDeviceAddress env p tr).1 = s) ∧
    (getDeviceName env p tr).2 = tr ++ [Event.call "org.bluez" p
      "org.freedesktop.DBus.Properties" "Get" ["org.bluez.Device1", "Name"]] ∧
    (getDeviceAddress env p tr).2 = tr ++ [Event.call "org.bluez" p
      "org.freedesktop.DBus.Properties" "Get" ["org.bluez.Device1", "Address"]] ∧
    cerrOf (getDeviceName env p tr).2 = cerrOf tr ∧
    cerrOf (getDeviceAddress env p tr).2 = cerrOf tr ∧
    ∀ (rest : List String) (count : Int),
      reportLoop env (p :: rest) count tr =
        reportLoop env rest (count + 1)
          (tr ++ propertyCalls p ++
            [Event.cout (toString count ++ ". " ++ (getDeviceName env p tr).1 ++ "\n"),
             Event.cout ("   Address: " ++ (getDeviceAddress env p
               (getDeviceName env p tr).2).1 ++ "\n"),
             Event.cout ("   Path: " ++ p ++ "\n"),
             Event.cout "\n"]) := by
  refine ⟨?_, ?_, ?_, ?_, ?_, ?_, ?_, ?_, ?_⟩
  · intro h
    rw [getDeviceName_eq]
    rcases h with h | h | h
    · simp [resolved, h]
    · simp [resolved, h]
    · simp [resolved, h]
  · intro s h1 h2 h3
    rw [getDeviceName_eq]
    simp [resolved, not_lt.mpr h1, not_lt.mpr h2, h3]
  · intro h
    rw [getDeviceAddress_eq]
    rcases h with h | h | h
    · simp [resolved, h]
    · simp [resolved, h]
    · simp [resolved, h]
  · intro s h1 h2 h3
    rw [getDeviceAddress_eq]
    simp [resolved, not_lt.mpr h1, not_lt.mpr h2, h3]
  · rw [getDeviceName_eq]
  · rw [getDeviceAddress_eq]
  · rw [getDeviceName_eq]; simp [cerrOf]
  · rw [getDeviceAddress_eq]; simp [cerrOf]
  · intro rest count
    rw [reportLoop]
    simp [getDeviceName_eq, getDeviceAddress_eq, propertyCalls]

theorem getDeviceName_getDeviceAddress_sentinels_witness :
    (getDeviceName demoService "/org/bluez/hci0/dev_BB" []).1 = "Unknown Device" ∧
      (getDeviceAddress demoService "/org/bluez/hci0/dev_BB" []).1 = "Unknown Address" :=
  ⟨(getDeviceName_getDeviceAddress_sentinels demoService "/org/bluez/hci0/dev_BB" []).1
      (Or.inl (by decide)),
    (getDeviceName_getDeviceAddress_sentinels demoService "/org/bluez/hci0/dev_BB" []).2.2.1
      (Or.inl (by decide))⟩

/-! ## The scan and the process -/

/-- C5: when the `StartDiscovery` call fails, `scanForDevices` prints its
opening line, issues that one call, reports the failure on standard error and
does nothing else: no sleep, no further method call, no further output. On
standard error, a stream that has not failed receives
"Failed to start discovery: " followed by the text of the error and a newline,
or just "Failed to start discovery: " when the error carries no text. When
the bus could be opened, the process does exactly this and exits with code 0. -/
theorem scanForDevices_start_failure (env : Service) (d : Int) (tr : Trace)
    (h : env.startDiscovery.r < 0) :
    scanForDevices env d tr =
        tr ++ [Event.cout ("Starting Bluetooth device scan for " ++ toString d ++ " seconds..."
            ++ "\n"),
          Event.call "org.bluez" "/org/bluez/hci0" "org.bluez.Adapter1" "StartDiscovery" []]
        ++ cerrEvents "Failed to start discovery: " env.startDiscovery.message (cerrBad tr) ∧
      sleepsOf (scanForDevices env d tr) = sleepsOf tr ∧
      callsOf (scanForDevices env d tr) =
        callsOf tr ++
          [Event.call "org.bluez" "/org/bluez/hci0" "org.bluez.Adapter1" "StartDiscovery" []] ∧
      coutOf (scanForDevices env d tr) =
        coutOf tr ++ ["Starting Bluetooth device scan for " ++ toString d ++ " seconds..."
          ++ "\n"] ∧
      cerrOf (scanForDevices env d tr) =
        cerrOf tr ++
          (if cerrBad tr then []
           else [match env.startDiscovery.message with
            | some text => "Failed to start discovery: " ++ text ++ "\n"
            | none => "Failed to start discovery: "]) ∧
      (0 ≤ env.openSystem →
        (main env).1 = 0 ∧
        sleepsOf (main env).2 = [] ∧
        callsOf (main env).2 =
          [Event.call "org.bluez" "/org/bluez/hci0" "org.bluez.Adapter1" "StartDiscovery" []] ∧
        coutOf (main env).2 =
          ["Starting Bluetooth device scan for " ++ toString (30 : Int) ++ " seconds..."
            ++ "\n"] ∧
        cerrOf (main env).2 =
          [match env.startDiscovery.message with
            | some text => "Failed to start discovery: " ++ text ++ "\n"
            | none => "Failed to start discovery: "]) := by
  have hs := scanForDevices_not_started env d tr h
  refine ⟨hs, ?_, ?_, ?_, ?_, ?_⟩
  · rw [hs]; simp [sleepsOf, sleepsOf_cerrEvents]
  · rw [hs]; simp [callsOf, callsOf_cerrEvents]
  · rw [hs]; simp [coutOf, coutOf_cerrEvents]
  · rw [hs]
    cases hb : cerrBad tr
    · simp [cerrOf, cerrOf_cerrEvents]
    · simp [cerrOf, cerrEvents_bad]
  · intro ho
    have hm : main env = (0, scanForDevices env 30 [Event.openSystem]) := by
      simp [main, construct, not_lt.mpr ho]
    rw [hm, scanForDevices_not_started env 30 [Event.openSystem] h]
    have hb : cerrBad [Event.openSystem] = false := rfl
    rw [hb]
    refine ⟨rfl, ?_, ?_, ?_, ?_⟩
    · simp [sleepsOf, sleepsOf_cerrEvents]
    · simp [callsOf, callsOf_cerrEvents]
    · simp [coutOf, coutOf_cerrEvents]
    · simp [cerrOf, cerrOf_cerrEvents]

theorem scanForDevices_start_failure_witness :
    (main noStartService).1 = 0 ∧
      callsOf (main noStartService).2 =
        [Event.call "org.bluez" "/org/bluez/hci0" "org.bluez.Adapter1" "StartDiscovery" []] ∧
      cerrOf (main noStartService).2 = ["Failed to start discovery: Resource Not Ready\n"] :=
  ⟨((scanForDevices_start_failure noStartService 30 [] (by decide)).2.2.2.2.2 (by decide)).1,
    ((scanForDevices_start_failure noStartService 30 [] (by decide)).2.2.2.2.2 (by decide)).2.2.1,
    ((scanForDevices_start_failure noStartService 30 [] (by decide)).2.2.2.2.2
      (by decide)).2.2.2.2.trans (by decide)⟩

/-- C6: the exit code is 1 exactly when `sd_bus_open_system` fails. In that
case the run consists of the failed open and one line on standard error, with
no method call and no sleep. In every other run the exit code is 0, whatever
the service answers to the calls. -/
theorem main_exit_code (env : Service) :
    ((main env).1 = 1 ↔ env.openSystem < 0) ∧
      (env.openSystem < 0 →
        (main env).2 = [Event.openSystem,
          Event.cerr ("Error: " ++ ("Failed to connect to system bus: "
            ++ env.strerror (-env.openSystem)) ++ "\n")] ∧
        callsOf (main env).2 = [] ∧ sleepsOf (main env).2 = [] ∧ coutOf (main env).2 = []) ∧
      (0 ≤ env.openSystem → (main env).1 = 0) := by
  by_cases h : env.openSystem < 0
  · simp [main, construct, h, callsOf, sleepsOf, coutOf, not_le.mpr h, cerrLine, cerrEvents,
      cerrBad]
  · simp [main, construct, h, not_lt.mp h]

theorem main_exit_code_witness :
    (main noBusService).1 = 1 ∧ callsOf (main noBusService).2 = [] ∧ (main demoService).1 = 0 :=
  ⟨(main_exit_code noBusService).1.mpr (by decide),
    ((main_exit_code noBusService).2.1 (by decide)).2.1,
    (main_exit_code demoService).2.2 (by decide)⟩

/-- C7, the run on which the source departs from it: `StopDiscovery` fails
with an error that carries no text and `GetManagedObjects` fails after it.
Line 74 streams the null `error.message` to `std::cerr`, which writes
"Failed to stop discovery: ", fails, and stays silent for the rest of the run.
With a successful stop the same run reports the failed enumeration on standard
error, so the failed stop did more than add a line: the later line is lost. -/
theorem stopDiscovery_null_message_silences_cerr :
    cerrOf (main silentStopService).2 = ["Failed to stop discovery: "] ∧
      cerrOf (main { silentStopService with stopDiscovery := { r := 0, message := none } }).2 =
        ["Failed to get managed objects: Connection timed out\n"] := by
  decide

/-! ## The report -/

theorem collected_mem_path (es : List Entry) :
    ∀ p ∈ collected es, ∃ e ∈ es, e.path = some p := by
  induction es with
  | nil => simp [collected]
  | cons e es ih =>
    intro p hp
    rcases e with ⟨_ | q, _ | m⟩
    · simp [collected] at hp
    · simp [collected] at hp
    · by_cases hq : find q "/org/bluez/hci0/dev_" = none
      · simp [collected, hq] at hp
      · simp only [collected, ne_eq, hq, not_false_eq_true, if_true, List.mem_singleton] at hp
        exact ⟨_, List.mem_cons_self _ _, by rw [hp]⟩
    · by_cases hq : find q "/org/bluez/hci0/dev_" = none
      · simp only [collected, ne_eq, hq, not_true_eq_false, if_false, List.nil_append] at hp
        obtain ⟨e, he, hep⟩ := ih p hp
        exact ⟨e, List.mem_cons_of_mem _ he, hep⟩
      · simp only [collected, ne_eq, hq, not_false_eq_true, if_true, List.singleton_append,
          List.mem_cons] at hp
        rcases hp with hp | hp
        · exact ⟨_, List.mem_cons_self _ _, by rw [hp]⟩
        · obtain ⟨e, he, hep⟩ := ih p hp
          exact ⟨e, List.mem_cons_of_mem _ he, hep⟩

/-- A reply none of whose readable paths contains the device pattern yields no device. -/
theorem getDiscoveredDevices_none_matching (env : Service)
    (hz : ∀ es, env.getManagedObjects.body = some es →
      ∀ e ∈ es, ∀ p, e.path = some p → find p "/org/bluez/hci0/dev_" = none) :
    (getDiscoveredDevices env []).1 = [] := by
  rw [getDiscoveredDevices_devices]
  by_cases h : env.getManagedObjects.r < 0
  · simp [h]
  · cases hb : env.getManagedObjects.body with
    | none => simp [h]
    | some es =>
      simp only [h, if_false, Option.map_some', Option.getD_some]
      rw [List.eq_nil_iff_forall_not_mem]
      intro p hp
      obtain ⟨e, he, hep⟩ := collected_mem_path es p hp
      exact collected_matches es p hp (hz es hb e he p hep)

theorem found_zero : "Found " ++ toString (0 : Nat) ++ " device(s):\n" ++ "\n"
    = "Found 0 device(s):\n\n" := by decide

/-- The report of a started scan whose enumeration yields no device. -/
theorem scanForDevices_no_device (env : Service) (d : Int) (tr : Trace)
    (h : 0 ≤ env.startDiscovery.r) (h0 : (getDiscoveredDevices env []).1 = []) :
    coutOf (scanForDevices env d tr) =
        coutOf tr ++ ["Starting Bluetooth device scan for " ++ toString d ++ " seconds..."
            ++ "\n", "Discovery started..." ++ "\n"]
          ++ (if env.stopDiscovery.r < 0 then [] else ["Discovery stopped." ++ "\n"])
          ++ ["\n=== Discovered Bluetooth Devices ===" ++ "\n", "Found 0 device(s):\n\n",
            "No devices found." ++ "\n"] ∧
      callsOf (scanForDevices env d tr) =
        callsOf tr ++
          [Event.call "org.bluez" "/org/bluez/hci0" "org.bluez.Adapter1" "StartDiscovery" [],
           Event.call "org.bluez" "/org/bluez/hci0" "org.bluez.Adapter1" "StopDiscovery" [],
           Event.call "org.bluez" "/" "org.freedesktop.DBus.ObjectManager" "GetManagedObjects"
             []] := by
  rw [scanForDevices_started env d tr h]
  constructor
  · simp only [coutOf_append, coutOf_stopEvents, coutOf_afterStop, h0, if_true, List.length_nil,
      found_zero]
    simp [coutOf]
  · simp only [callsOf_append, callsOf_stopEvents, callsOf_afterStop, h0]
    simp [callsOf]

/-- A failing `GetManagedObjects` call: the result is empty, and the trace
grows by the call and by what the error statement still writes. -/
theorem getDiscoveredDevices_call_failure (env : Service) (tr : Trace)
    (hg : env.getManagedObjects.r < 0) :
    getDiscoveredDevices env tr =
      ([], tr ++ Event.call "org.bluez" "/" "org.freedesktop.DBus.ObjectManager"
          "GetManagedObjects" [] ::
        cerrEvents "Failed to get managed objects: " env.getManagedObjects.message
          (cerrBad tr)) := by
  rw [getDiscoveredDevices_eq]
  simp [hg, enumerationEvents]

/-- C8, the run on which the source departs from it: `StopDiscovery` has
failed with an error that carries no text, so `std::cerr` has failed at line
74; the `GetManagedObjects` call then fails with the text
"Connection timed out", and line 169 writes nothing. The run issues the
call, reports no device, and standard error never receives the service
error. -/
theorem getManagedObjects_error_not_written :
    (main silentStopService).2 =
      [Event.openSystem,
       Event.cout "Starting Bluetooth device scan for 30 seconds...\n",
       Event.call "org.bluez" "/org/bluez/hci0" "org.bluez.Adapter1" "StartDiscovery" [],
       Event.cout "Discovery started...\n",
       Event.sleep 30,
       Event.call "org.bluez" "/org/bluez/hci0" "org.bluez.Adapter1" "StopDiscovery" [],
       Event.cerr "Failed to stop discovery: ",
       Event.cerrFail,
       Event.call "org.bluez" "/" "org.freedesktop.DBus.ObjectManager" "GetManagedObjects" [],
       Event.cout "\n=== Discovered Bluetooth Devices ===\n",
       Event.cout "Found 0 device(s):\n\n",
       Event.cout "No devices found.\n"] := by
  decide

/-- C10, as stated, fails: the only path of the reply,
"/x/org/bluez/hci0/dev_AA", does not start with "/org/bluez/hci0/dev_", yet the
scan reports one device, prints its entry and issues both property reads. -/
theorem scanForDevices_reports_stray_path :
    strayService.getManagedObjects.body =
        some [Entry.wellFormed "/x/org/bluez/hci0/dev_AA" []] ∧
      startsWith "/x/org/bluez/hci0/dev_AA" "/org/bluez/hci0/dev_" = false ∧
      coutOf (scanForDevices strayService 30 []) =
        ["Starting Bluetooth device scan for 30 seconds...\n", "Discovery started...\n",
         "Discovery stopped.\n", "\n=== Discovered Bluetooth Devices ===\n",
         "Found 1 device(s):\n\n", "1. Unknown Device\n", "   Address: Unknown Address\n",
         "   Path: /x/org/bluez/hci0/dev_AA\n", "\n"] ∧
      callsOf (scanForDevices strayService 30 []) =
        [Event.call "org.bluez" "/org/bluez/hci0" "org.bluez.Adapter1" "StartDiscovery" [],
         Event.call "org.bluez" "/org/bluez/hci0" "org.bluez.Adapter1" "StopDiscovery" [],
         Event.call "org.bluez" "/" "org.freedesktop.DBus.ObjectManager" "GetManagedObjects" [],
         Event.call "org.bluez" "/x/org/bluez/hci0/dev_AA" "org.freedesktop.DBus.Properties"
           "Get" ["org.bluez.Device1", "Name"],
         Event.call "org.bluez" "/x/org/bluez/hci0/dev_AA" "org.freedesktop.DBus.Properties"
           "Get" ["org.bluez.Device1", "Address"]] := by
  decide

/-- C10, amended: when the enumeration of a started scan yields no path, the
scan prints "Found 0 device(s):" and "No devices found." and no device entry,
and it issues the three calls `StartDiscovery`, `StopDiscovery` and
`GetManagedObjects` and no `Properties.Get` call. The enumeration yields no
path for an empty reply and for a reply none of whose readable paths contains
"/org/bluez/hci0/dev_" anywhere. -/
theorem scanForDevices_zero_devices (env : Service) (d : Int) (tr : Trace)
    (h : 0 ≤ env.startDiscovery.r) :
    ((∀ es, env.getManagedObjects.body = some es →
        ∀ e ∈ es, ∀ p, e.path = some p → find p "/org/bluez/hci0/dev_" = none) →
      (getDiscoveredDevices env []).1 = []) ∧
    ((getDiscoveredDevices env []).1 = [] →
      coutOf (scanForDevices env d tr) =
          coutOf tr ++ ["Starting Bluetooth device scan for " ++ toString d ++ " seconds..."
              ++ "\n", "Discovery started..." ++ "\n"]
            ++ (if env.stopDiscovery.r < 0 then [] else ["Discovery stopped." ++ "\n"])
            ++ ["\n=== Discovered Bluetooth Devices ===" ++ "\n", "Found 0 device(s):\n\n",
              "No devices found." ++ "\n"] ∧
        callsOf (scanForDevices env d tr) =
          callsOf tr ++
            [Event.call "org.bluez" "/org/bluez/hci0" "org.bluez.Adapter1" "StartDiscovery" [],
             Event.call "org.bluez" "/org/bluez/hci0" "org.bluez.Adapter1" "StopDiscovery" [],
             Event.call "org.bluez" "/" "org.freedesktop.DBus.ObjectManager" "GetManagedObjects"
               []]) :=
  ⟨getDiscoveredDevices_none_matching env, scanForDevices_no_device env d tr h⟩

theorem scanForDevices_zero_devices_witness :
    coutOf (scanForDevices adapterOnlyService 30 []) =
        ["Starting Bluetooth device scan for 30 seconds...\n", "Discovery started...\n",
         "Discovery stopped.\n", "\n=== Discovered Bluetooth Devices ===\n",
         "Found 0 device(s):\n\n", "No devices found.\n"] ∧
      callsOf (scanForDevices adapterOnlyService 30 []) =
        [Event.call "org.bluez" "/org/bluez/hci0" "org.bluez.Adapter1" "StartDiscovery" [],
         Event.call "org.bluez" "/org/bluez/hci0" "org.bluez.Adapter1" "StopDiscovery" [],
         Event.call "org.bluez" "/" "org.freedesktop.DBus.ObjectManager" "GetManagedObjects" []] :=
  ⟨(((scanForDevices_zero_devices adapterOnlyService 30 [] (by decide)).2
      ((scanForDevices_zero_devices adapterOnlyService 30 [] (by decide)).1 (by
        intro es hes e he p hp
        have hes' : es =
            [Entry.wellFormed "/org/bluez" [], Entry.wellFormed "/org/bluez/hci0" []] :=
          (Option.some.inj hes).symm
        subst hes'
        simp only [List.mem_cons, List.mem_singleton, List.not_mem_nil, or_false] at he
        rcases he with he | he
        · subst he
          cases Option.some.inj hp
          decide
        · subst he
          cases Option.some.inj hp
          decide))).1).trans (by decide),
    ((scanForDevices_zero_devices adapterOnlyService 30 [] (by decide)).2 (by decide)).2⟩

theorem resolved_unreadable (sentinel : String) (reply : PropertyReply)
    (h : reply.r < 0 ∨ reply.readR < 0 ∨ reply.value = none) : resolved sentinel reply = sentinel := by
  unfold resolved
  rcases h with h | h | h
  · simp [h]
  · simp [h]
  · simp [h]

theorem resolved_readable (sentinel s : String) (reply : PropertyReply)
    (h1 : 0 ≤ reply.r) (h2 : 0 ≤ reply.readR) (h3 : reply.value = some s) :
    resolved sentinel reply = s := by
  simp [resolved, not_lt.mpr h1, not_lt.mpr h2, h3]

theorem length_entries (env : Service) (base : Nat) (devices : List String) :
    ∀ k, ((devices.enumFrom k).flatMap fun kp => entryLines env base kp.1 kp.2).length
      = 4 * devices.length := by
  induction devices with
  | nil => intro k; simp
  | cons p rest ih =>
    intro k
    rw [List.enumFrom_cons, List.flatMap_cons, List.length_append, ih (k + 1)]
    simp [entryLines]
    omega

/-- C9: when the enumeration of a started scan yields `n ≥ 1` paths, the
standard output is the opening lines, the heading, the line "Found n
device(s):" and then `n` entries of four lines each: entry `k + 1` (for the
path at position `k`, counted from 0) carries the number `k + 1`, the name
resolved from the reply to its `Name` read (or "Unknown Device"), the address
resolved from the reply to its `Address` read (or "Unknown Address"), and the
path. With two paths, the first fully readable and the second not readable at
all, entry 1 shows the real name and address and entry 2 both sentinels. -/
theorem scanForDevices_report (env : Service) (d : Int) (tr : Trace)
    (h : 0 ≤ env.startDiscovery.r) (hn : 1 ≤ (getDiscoveredDevices env []).1.length) :
    coutOf (scanForDevices env d tr) =
        coutOf tr ++ ["Starting Bluetooth device scan for " ++ toString d ++ " seconds..."
            ++ "\n", "Discovery started..." ++ "\n"]
          ++ (if env.stopDiscovery.r < 0 then [] else ["Discovery stopped." ++ "\n"])
          ++ ["\n=== Discovered Bluetooth Devices ===" ++ "\n",
            "Found " ++ toString (getDiscoveredDevices env []).1.length ++ " device(s):\n"
              ++ "\n"]
          ++ ((getDiscoveredDevices env []).1.enum.flatMap fun kp =>
              entryLines env (callsIssued tr + 3) kp.1 kp.2) ∧
      ((getDiscoveredDevices env []).1.enum.flatMap fun kp =>
          entryLines env (callsIssued tr + 3) kp.1 kp.2).length
        = 4 * (getDiscoveredDevices env []).1.length ∧
      ∀ p1 p2 name address : String, (getDiscoveredDevices env []).1 = [p1, p2] →
        (0 ≤ (env.propertiesGet (callsIssued tr + 3) p1 "Name").r ∧
          0 ≤ (env.propertiesGet (callsIssued tr + 3) p1 "Name").readR ∧
          (env.propertiesGet (callsIssued tr + 3) p1 "Name").value = some name) →
        (0 ≤ (env.propertiesGet (callsIssued tr + 4) p1 "Address").r ∧
          0 ≤ (env.propertiesGet (callsIssued tr + 4) p1 "Address").readR ∧
          (env.propertiesGet (callsIssued tr + 4) p1 "Address").value = some address) →
        ((env.propertiesGet (callsIssued tr + 5) p2 "Name").r < 0 ∨
          (env.propertiesGet (callsIssued tr + 5) p2 "Name").readR < 0 ∨
          (env.propertiesGet (callsIssued tr + 5) p2 "Name").value = none) →
        ((env.propertiesGet (callsIssued tr + 6) p2 "Address").r < 0 ∨
          (env.propertiesGet (callsIssued tr + 6) p2 "Address").readR < 0 ∨
          (env.propertiesGet (callsIssued tr + 6) p2 "Address").value = none) →
        coutOf (scanForDevices env d tr) =
          coutOf tr ++ ["Starting Bluetooth device scan for " ++ toString d ++ " seconds..."
              ++ "\n", "Discovery started..." ++ "\n"]
            ++ (if env.stopDiscovery.r < 0 then [] else ["Discovery stopped." ++ "\n"])
            ++ ["\n=== Discovered Bluetooth Devices ===" ++ "\n", "Found 2 device(s):\n\n",
              "1. " ++ name ++ "\n",
              "   Address: " ++ address ++ "\n",
              "   Path: " ++ p1 ++ "\n",
              "\n",
              "2. Unknown Device\n",
              "   Address: Unknown Address\n",
              "   Path: " ++ p2 ++ "\n",
              "\n"] := by
  have hne : (getDiscoveredDevices env []).1 ≠ [] := by
    intro h0; rw [h0] at hn; simp at hn
  have hc : coutOf (scanForDevices env d tr) =
        coutOf tr ++ ["Starting Bluetooth device scan for " ++ toString d ++ " seconds..."
            ++ "\n", "Discovery started..." ++ "\n"]
          ++ (if env.stopDiscovery.r < 0 then [] else ["Discovery stopped." ++ "\n"])
          ++ ["\n=== Discovered Bluetooth Devices ===" ++ "\n",
            "Found " ++ toString (getDiscoveredDevices env []).1.length ++ " device(s):\n"
              ++ "\n"]
          ++ ((getDiscoveredDevices env []).1.enum.flatMap fun kp =>
              entryLines env (callsIssued tr + 3) kp.1 kp.2) := by
    rw [scanForDevices_started env d tr h]
    simp only [coutOf_append, coutOf_stopEvents, coutOf_afterStop, hne, if_false]
    simp [coutOf]
  refine ⟨hc, length_entries env _ _ 0, ?_⟩
  intro p1 p2 name address hd h1 h2 h3 h4
  rw [hc, hd]
  have e1 := resolved_readable "Unknown Device" name _ h1.1 h1.2.1 h1.2.2
  have e2 := resolved_readable "Unknown Address" address _ h2.1 h2.2.1 h2.2.2
  have e3 := resolved_unreadable "Unknown Device" _ h3
  have e4 := resolved_unreadable "Unknown Address" _ h4
  have t1 : toString (0 + 1) = "1" := by decide
  have t2 : toString (1 + 1) = "2" := by decide
  have t3 : "Found " ++ toString (2 : Nat) ++ " device(s):\n" ++ "\n"
      = "Found 2 device(s):\n\n" := by decide
  have a1 : callsIssued tr + 3 + 2 * 0 = callsIssued tr + 3 := by omega
  have a2 : callsIssued tr + 3 + 2 * 0 + 1 = callsIssued tr + 4 := by omega
  have a3 : callsIssued tr + 3 + 2 * 1 = callsIssued tr + 5 := by omega
  have a4 : callsIssued tr + 3 + 2 * 1 + 1 = callsIssued tr + 6 := by omega
  have hl : ([p1, p2] : List String).length = 2 := rfl
  have hen : ([p1, p2] : List String).enum = [(0, p1), (1, p2)] := rfl
  rw [hl, t3, hen]
  simp only [List.flatMap_cons, List.flatMap_nil, entryLines, a1, a2, a3, a4, e1, e2, e3, e4, t1,
    t2, List.append_nil, List.cons_append, List.nil_append]
  have s1 : "2" ++ ". " ++ "Unknown Device" ++ "\n" = "2. Unknown Device\n" := by decide
  have s2 : "   Address: " ++ "Unknown Address" ++ "\n" = "   Address: Unknown Address\n" := by
    decide
  have s3 : "1" ++ ". " = "1. " := by decide
  rw [s1, s2, s3]
  simp only [List.append_assoc, List.cons_append, List.nil_append]

theorem scanForDevices_report_witness :
    coutOf (scanForDevices demoService 30 []) =
      ["Starting Bluetooth device scan for 30 seconds...\n", "Discovery started...\n",
       "\n=== Discovered Bluetooth Devices ===\n", "Found 2 device(s):\n\n",
       "1. Phone\n", "   Address: AA:BB:CC:DD:EE:FF\n", "   Path: /org/bluez/hci0/dev_AA\n", "\n",
       "2. Unknown Device\n", "   Address: Unknown Address\n",
       "   Path: /org/bluez/hci0/dev_BB\n", "\n"] :=
  ((scanForDevices_report demoService 30 [] (by decide) (by decide)).2.2
    "/org/bluez/hci0/dev_AA" "/org/bluez/hci0/dev_BB" "Phone" "AA:BB:CC:DD:EE:FF" (by decide)
    (by decide) (by decide) (by decide) (by decide)).trans (by decide)

end BluetoothScanner
